import Mathlib

/-
Verification of the double-entry accounting / asset-depreciation /
commission-advance core of the saletide backend.

Monetary values (Python Decimal with 2 decimal places) are embedded as
rationals; exact Decimal addition and subtraction translate directly, and
where the code divides we use exact rational division (the code's Decimal
division rounds to 28 significant digits, which never affects the clamping
and evaluation facts proved here, and is exact on all concrete inputs used).
Database rows are embedded as lists or as functions from a numeric id;
an operation that raises in Python is embedded as a function returning none,
which is faithful because every raise in the embedded code paths happens
before any mutation (the surrounding transaction also rolls partial writes
back).
-/

namespace Saletide

/-- Account types, from accounting/models.py Account.ACCOUNT_TYPES. -/
inductive AccountType
  | ASSET
  | LIABILITY
  | EQUITY
  | REVENUE
  | EXPENSE
deriving DecidableEq

/-- The balance state of one Account row (accounting/models.py Account):
its type and the three monetary columns balance, debit_balance,
credit_balance. -/
structure Account where
  account_type : AccountType
  balance : ℚ
  debit_balance : ℚ
  credit_balance : ℚ
deriving DecidableEq

/-- Account.update_balance: recompute balance from the account type
(debit minus credit for ASSET/EXPENSE, credit minus debit otherwise)
and save. -/
def Account.update_balance (a : Account) : Account :=
  if a.account_type = .ASSET ∨ a.account_type = .EXPENSE then
    { a with balance := a.debit_balance - a.credit_balance }
  else
    { a with balance := a.credit_balance - a.debit_balance }

/-- An account state satisfies the derived-balance invariant exactly when
update_balance leaves it unchanged. -/
def Account.balanced (a : Account) : Prop := a.update_balance = a

instance (a : Account) : Decidable a.balanced := by
  unfold Account.balanced; infer_instance

/-- Journal entry statuses, from JournalEntry.STATUS_CHOICES. -/
inductive EntryStatus
  | DRAFT
  | POSTED
  | REVERSED
deriving DecidableEq

/-- One JournalEntryLine: the id of its account and the two amounts. -/
structure Line where
  account : ℕ
  debit_amount : ℚ
  credit_amount : ℚ
deriving DecidableEq

/-- A JournalEntry: its status and its lines (in creation order). -/
structure JournalEntry where
  status : EntryStatus
  lines : List Line
deriving DecidableEq

/-- The account table, as a map from account id to its state. -/
abbrev Accounts := ℕ → Account

/-- Apply one line to the account table: add the line's debit_amount and
credit_amount to its account and recompute that account's balance.
This is both the body of the loop in JournalEntry.post and the mutation
performed by JournalEntryLine.save after the row is stored. -/
def applyLine (accs : Accounts) (l : Line) : Accounts := fun i =>
  if l.account = i then
    Account.update_balance
      { accs l.account with
          debit_balance := (accs l.account).debit_balance + l.debit_amount,
          credit_balance := (accs l.account).credit_balance + l.credit_amount }
  else accs i

/-- Subtract one line from the account table: the body of the loop in
JournalEntry.reverse. -/
def unapplyLine (accs : Accounts) (l : Line) : Accounts := fun i =>
  if l.account = i then
    Account.update_balance
      { accs l.account with
          debit_balance := (accs l.account).debit_balance - l.debit_amount,
          credit_balance := (accs l.account).credit_balance - l.credit_amount }
  else accs i

/-- JournalEntryLine.save: after storing the row, add the line's amounts to
its account's balances, whatever the status of the parent entry. -/
def JournalEntryLine.save (accs : Accounts) (l : Line) : Accounts :=
  applyLine accs l

/-- Sum of debit_amount over a list of lines. -/
def sumDebits (ls : List Line) : ℚ := (ls.map Line.debit_amount).sum

/-- Sum of credit_amount over a list of lines. -/
def sumCredits (ls : List Line) : ℚ := (ls.map Line.credit_amount).sum

/-- Sum of debit_amount over the lines of the list that hit account i. -/
def sumDebitsAt (i : ℕ) (ls : List Line) : ℚ :=
  (ls.map fun l => if l.account = i then l.debit_amount else 0).sum

/-- Sum of credit_amount over the lines of the list that hit account i. -/
def sumCreditsAt (i : ℕ) (ls : List Line) : ℚ :=
  (ls.map fun l => if l.account = i then l.credit_amount else 0).sum

/-- JournalEntry.post: raise (none) unless the entry is DRAFT; raise if the
summed debits differ from the summed credits; otherwise apply every line to
the account table and mark the entry POSTED. Both raises happen before any
balance is touched, so a none result leaves the account table in force. -/
def JournalEntry.post (accs : Accounts) (e : JournalEntry) :
    Option (Accounts × JournalEntry) :=
  if e.status ≠ .DRAFT then none
  else if sumDebits e.lines ≠ sumCredits e.lines then none
  else some (e.lines.foldl applyLine accs, { e with status := .POSTED })

/-- JournalEntry.reverse: raise (none) unless the entry is POSTED; otherwise
subtract every line from the account table and mark the entry REVERSED. -/
def JournalEntry.reverse (accs : Accounts) (e : JournalEntry) :
    Option (Accounts × JournalEntry) :=
  if e.status ≠ .POSTED then none
  else some (e.lines.foldl unapplyLine accs, { e with status := .REVERSED })

/-- One balance-changing operation on the account table: posting or
reversing some journal entry. -/
inductive AcctOp
  | post (e : JournalEntry)
  | reverse (e : JournalEntry)

/-- Run one operation; a raised error leaves the account table unchanged. -/
def runOp (accs : Accounts) : AcctOp → Accounts
  | .post e =>
      match JournalEntry.post accs e with
      | some (accs', _) => accs'
      | none => accs
  | .reverse e =>
      match JournalEntry.reverse accs e with
      | some (accs', _) => accs'
      | none => accs

/-- Run a sequence of post/reverse operations. -/
def runOps (accs : Accounts) (ops : List AcctOp) : Accounts :=
  ops.foldl runOp accs

/-- A freshly created account of the given type: the three monetary columns
default to 0 (accounting/models.py field defaults). -/
def Account.new (t : AccountType) : Account :=
  { account_type := t, balance := 0, debit_balance := 0, credit_balance := 0 }

/-- Zero-pad the decimal representation of n to 6 digits, keeping all digits
when there are more than 6, like the Python format 06d. -/
def pad6 (n : ℕ) : String :=
  let s := toString n
  String.mk (List.replicate (6 - s.length) '0') ++ s

/-- An entry number in the generated format YEAR-NNNNNN. -/
def mkEntryNumber (year n : ℕ) : String :=
  toString year ++ "-" ++ pad6 n

/-- Lexicographic comparison of character lists by code point, the order a
binary-collated database applies to the entry_number column. -/
def charsLt : List Char → List Char → Bool
  | [], [] => false
  | [], _ :: _ => true
  | _ :: _, [] => false
  | a :: as, b :: bs =>
    if a.toNat < b.toNat then true
    else if b.toNat < a.toNat then false
    else charsLt as bs

/-- Lexicographic comparison of strings by code point. -/
def strLt (s t : String) : Bool := charsLt s.data t.data

/-- The greatest string of the list in lexicographic order, embedding the
descending order_by on the entry_number column of the entry-number query in
JournalEntry.save followed by first. -/
def maxString? (l : List String) : Option String :=
  l.foldl
    (fun acc s =>
      match acc with
      | none => some s
      | some t => some (if strLt t s then s else t))
    none

/-- Split a character list on the dash character, like the Python str.split
with separator '-': the result always has at least one piece and empty
pieces are kept. -/
def splitDash : List Char → List (List Char)
  | [] => [[]]
  | c :: cs =>
    let r := splitDash cs
    if c = '-' then [] :: r
    else (c :: r.headD []) :: r.tail

/-- Parse a character list as a base-10 natural number, succeeding exactly
on nonempty all-digit input, like Python int on the strings that occur in
the entry_number column (surrounding whitespace or a sign never occurs
there). -/
def digitsToNat? (cs : List Char) : Option ℕ :=
  if cs ≠ [] ∧ cs.all Char.isDigit then
    some (cs.foldl (fun n c => n * 10 + (c.toNat - '0'.toNat)) 0)
  else none

/-- The final piece of the string split on dashes, parsed as an integer:
int(entry_number.split(chr(45))[-1]) in JournalEntry.save, returning none
where Python raises ValueError. -/
def lastDashPiece? (s : String) : Option ℕ :=
  digitsToNat? ((splitDash s.data).getLastD [])

/-- Entry-number generation in JournalEntry.save, run when no explicit
entry_number was set. The argument is the list of entry_number values of
existing entries dated in the same calendar year. The code loads the row
whose entry_number is greatest in string order, splits that number on the
dash character, parses the final piece as an integer, and formats
year-(parsed+1) zero-padded to 6 digits; when the parse fails, when the
number is empty, or when no row exists at all, it falls back to
year-000001. -/
def generate_entry_number (year : ℕ) (existing : List String) : String :=
  match maxString? existing with
  | some last =>
    if last ≠ "" then
      match lastDashPiece? last with
      | some n => mkEntryNumber year (n + 1)
      | none => mkEntryNumber year 1
    else mkEntryNumber year 1
  | none => mkEntryNumber year 1

/-- Depreciation methods, from AssetCategory.depreciation_method choices. -/
inductive DepMethod
  | STRAIGHT_LINE
  | DECLINING_BALANCE
  | DOUBLE_DECLINING
  | UNITS_OF_PRODUCTION
deriving DecidableEq

/-- Asset.depreciation_rate: 0 when the useful life is not positive;
otherwise 1/life for straight line, 2/life for double declining,
1.5/life for declining balance, 1/life for anything else. -/
def depreciation_rate (method : DepMethod) (useful_life_years : ℕ) : ℚ :=
  if useful_life_years = 0 then 0
  else
    match method with
    | .STRAIGHT_LINE => 1 / useful_life_years
    | .DOUBLE_DECLINING => 2 / useful_life_years
    | .DECLINING_BALANCE => (3 / 2) / useful_life_years
    | .UNITS_OF_PRODUCTION => 1 / useful_life_years

/-- Round a rational to 2 decimal places with ties away from zero, the
Decimal quantize with ROUND_HALF_UP used in Asset.calculate_current_values. -/
def qround2 (x : ℚ) : ℚ :=
  if 0 ≤ x then ((⌊x * 100 + 1 / 2⌋ : ℤ) : ℚ) / 100
  else -(((⌊-x * 100 + 1 / 2⌋ : ℤ) : ℚ) / 100)

/-- The year loop of the DOUBLE_DECLINING branch of
Asset.calculate_current_values. State is the current year index, the
remaining book value and the accumulated total; fuel counts the remaining
iterations of range(months_owned / 12 + 1). Each pass stops when the
remaining value has reached the salvage value, otherwise depreciates the
remaining value at the annual rate, caps the year at the salvage floor, and
prorates the final partial year by months_owned mod 12 twelfths. -/
def ddLoop (salvage rate : ℚ) (lastYear partialMonths : ℕ) :
    ℕ → ℕ → ℚ → ℚ → ℚ × ℚ
  | 0, _, remaining, total => (remaining, total)
  | fuel + 1, year, remaining, total =>
    if remaining ≤ salvage then (remaining, total)
    else
      let yd0 := remaining * rate
      let yd1 := if remaining - yd0 < salvage then remaining - salvage else yd0
      let yd := if year = lastYear then yd1 * ((partialMonths : ℚ) / 12) else yd1
      ddLoop salvage rate lastYear partialMonths fuel (year + 1)
        (remaining - yd) (total + yd)

/-- Asset.calculate_current_values for an asset that is not DISPOSED or SOLD
and whose purchase date is not in the future, as a function of the method,
the monetary fields and the number of calendar months owned (year and month
difference between today and the purchase date, which the claim lets range
over every integer). Returns the pair (accumulated_depreciation,
current_book_value). With months owned at most 0 the result is
(0, purchase_cost); otherwise the STRAIGHT_LINE branch spreads the
depreciable amount linearly over the life in months, the DOUBLE_DECLINING
branch runs the year loop, and every other method falls into the default
branch, which is the same straight-line formula; the total is then clamped
at purchase_cost - salvage_value and both results are rounded to cents. -/
def calculate_current_values (method : DepMethod)
    (purchase_cost salvage_value : ℚ) (useful_life_years : ℕ)
    (months_owned : ℤ) : ℚ × ℚ :=
  if months_owned ≤ 0 then (0, purchase_cost)
  else
    let depreciable := purchase_cost - salvage_value
    let total :=
      match method with
      | .STRAIGHT_LINE =>
        depreciable * (months_owned : ℚ) / ((useful_life_years : ℚ) * 12)
      | .DOUBLE_DECLINING =>
        let m := months_owned.toNat
        (ddLoop salvage_value (depreciation_rate .DOUBLE_DECLINING useful_life_years)
          (m / 12) (m % 12) (m / 12 + 1) 0 purchase_cost 0).2
      | _ =>
        depreciable * (months_owned : ℚ) / ((useful_life_years : ℚ) * 12)
    let maxDep := purchase_cost - salvage_value
    let clamped := min total maxDep
    let acc := qround2 clamped
    (acc, qround2 (purchase_cost - acc))

/-- Asset statuses, from Asset.STATUS_CHOICES. -/
inductive AssetStatus
  | ACTIVE
  | INACTIVE
  | DISPOSED
  | SOLD
  | LOST
  | STOLEN
deriving DecidableEq

/-- The fields of an Asset row that Asset.create_disposal_entry and
Asset.save read or write: the depreciation inputs, the two stored
depreciation outputs, the status and the three disposal columns. -/
structure Asset where
  purchase_cost : ℚ
  salvage_value : ℚ
  useful_life_years : ℕ
  depreciation_method : DepMethod
  accumulated_depreciation : ℚ
  current_book_value : ℚ
  status : AssetStatus
  disposal_date : Option ℕ
  disposal_amount : Option ℚ
  disposal_method : String
deriving DecidableEq

/-- The effect of Asset.save on an existing asset row: save calls
calculate_current_values, which returns immediately, leaving the stored
accumulated_depreciation and current_book_value untouched, when the status
is DISPOSED or SOLD or when the purchase date lies in the future, and
otherwise rewrites both stored fields from the inputs as of today. The
ambient time enters as the purchase_in_future flag and the months owned as
of today. The remaining steps of save (asset-number generation, category
defaults, the purchase-entry side effect for new rows) do not touch these
fields on an existing row. -/
def Asset.save_calc (a : Asset) (purchase_in_future : Bool)
    (months_owned : ℤ) : Asset :=
  if a.status = .DISPOSED ∨ a.status = .SOLD then a
  else if purchase_in_future then a
  else
    let r := calculate_current_values a.depreciation_method a.purchase_cost
      a.salvage_value a.useful_life_years months_owned
    { a with accumulated_depreciation := r.1, current_book_value := r.2 }

/-- Asset.create_disposal_entry. The method first writes status DISPOSED and
the three disposal fields onto the asset, computes gain_loss as the
disposal amount minus the stored book value, and saves (the save
recomputation short-circuits because the status is now DISPOSED). It then
builds and posts the disposal journal entry inside a transaction; whether
that step succeeds is outside the asset state, so it enters here as the
journal_ok flag. On success the result dict carries the gain_loss; on any
journal failure the except branch writes status ACTIVE, clears the three
disposal fields, saves again — and this second save, with the status back
to ACTIVE, recomputes accumulated_depreciation and current_book_value as of
today — and re-raises, embedded as a none second component alongside the
rolled-back asset. -/
def Asset.create_disposal_entry (a : Asset) (ddate : ℕ) (damount : ℚ)
    (dmethod : String) (purchase_in_future : Bool) (months_owned : ℤ)
    (journal_ok : Bool) : Asset × Option ℚ :=
  let a1 : Asset :=
    { a with
        status := .DISPOSED
        disposal_date := some ddate
        disposal_amount := some damount
        disposal_method := dmethod }
  let gain_loss := damount - a.current_book_value
  let a2 := a1.save_calc purchase_in_future months_owned
  if journal_ok then (a2, some gain_loss)
  else
    (({ a2 with
        status := .ACTIVE
        disposal_date := none
        disposal_amount := none
        disposal_method := "" } : Asset).save_calc purchase_in_future months_owned,
      none)

/-- Commission statuses, from sales/models.py Commission.STATUS_CHOICES. -/
inductive CommissionStatus
  | AVAILABLE
  | PAYABLE
  | PAID
  | CANCELLED
deriving DecidableEq, BEq

/-- One Commission row: its employee, amount and status. -/
structure Commission where
  employee : ℕ
  commission_amount : ℚ
  status : CommissionStatus
deriving DecidableEq

/-- Advance statuses, from AdvancePayment.STATUS_CHOICES. -/
inductive AdvanceStatus
  | PENDING
  | APPROVED
  | REJECTED
  | PAID
  | RECOVERED
  | CANCELLED
deriving DecidableEq, BEq

/-- One AdvancePayment row: its employee, the two amounts and the status. -/
structure AdvancePayment where
  employee : ℕ
  requested_amount : ℚ
  approved_amount : ℚ
  status : AdvanceStatus
deriving DecidableEq

/-- Sum of commission_amount over the employee's commissions whose status is
AVAILABLE or PAYABLE (the pending_commission aggregate of
AdvancePaymentCreateSerializer.create). -/
def pending_commission (emp : ℕ) (cs : List Commission) : ℚ :=
  (cs.map fun c =>
    if c.employee = emp ∧ (c.status = .AVAILABLE ∨ c.status = .PAYABLE) then
      c.commission_amount
    else 0).sum

/-- Sum of approved_amount over the employee's advances whose status is
APPROVED or PAID (the unrecovered_advances aggregate of the serializer). -/
def unrecovered_advances (emp : ℕ) (advs : List AdvancePayment) : ℚ :=
  (advs.map fun a =>
    if a.employee = emp ∧ (a.status = .APPROVED ∨ a.status = .PAID) then
      a.approved_amount
    else 0).sum

/-- Available commission for advances: pending commissions minus unrecovered
advances, clamped at 0. -/
def available_commission (emp : ℕ) (cs : List Commission)
    (advs : List AdvancePayment) : ℚ :=
  max (pending_commission emp cs - unrecovered_advances emp advs) 0

/-- Sum of commission_amount over the employee's commissions whose status is
exactly PAYABLE: the aggregate that AdvancePaymentViewSet.give_advance
validates against. -/
def payable_commission (emp : ℕ) (cs : List Commission) : ℚ :=
  (cs.map fun c =>
    if c.employee = emp ∧ c.status = .PAYABLE then c.commission_amount
    else 0).sum

/-- AdvancePaymentCreateSerializer.create, the employee request path. The
field validator rejects a requested amount at most 0; create then rejects a
second advance on the same day, then rejects a requested amount exceeding
the available commission; otherwise it stores the advance directly as PAID
with approved_amount equal to the requested amount. -/
def request_advance (emp : ℕ) (requested : ℚ) (cs : List Commission)
    (advs : List AdvancePayment) (existing_advance_today : Bool) :
    Option AdvancePayment :=
  if requested ≤ 0 then none
  else if existing_advance_today then none
  else if available_commission emp cs advs < requested then none
  else some ⟨emp, requested, requested, .PAID⟩

/-- AdvancePaymentViewSet.give_advance, the manager path. Serializer field
validation rejects a requested amount at most 0; the view then compares the
requested amount only against the sum of the employee's PAYABLE commissions
and otherwise creates the advance directly as PAID. -/
def give_advance (emp : ℕ) (requested : ℚ) (cs : List Commission) :
    Option AdvancePayment :=
  if requested ≤ 0 then none
  else if payable_commission emp cs < requested then none
  else some ⟨emp, requested, requested, .PAID⟩

/-
Helper lemmas about the embedded operations.
-/

theorem update_balance_debit (a : Account) :
    a.update_balance.debit_balance = a.debit_balance := by
  unfold Account.update_balance; split <;> rfl

theorem update_balance_credit (a : Account) :
    a.update_balance.credit_balance = a.credit_balance := by
  unfold Account.update_balance; split <;> rfl

theorem update_balance_type (a : Account) :
    a.update_balance.account_type = a.account_type := by
  unfold Account.update_balance; split <;> rfl

theorem update_balance_balanced (a : Account) : a.update_balance.balanced := by
  unfold Account.balanced Account.update_balance
  split <;> rename_i h <;> simp_all

theorem balanced_balance (a : Account) (h : a.balanced) :
    a.balance =
      if a.account_type = .ASSET ∨ a.account_type = .EXPENSE then
        a.debit_balance - a.credit_balance
      else a.credit_balance - a.debit_balance := by
  conv_lhs => rw [← h]
  unfold Account.update_balance
  split <;> simp_all

theorem applyLine_debit (accs : Accounts) (l : Line) (i : ℕ) :
    (applyLine accs l i).debit_balance =
      (accs i).debit_balance + (if l.account = i then l.debit_amount else 0) := by
  unfold applyLine
  by_cases h : l.account = i
  · subst h; simp [update_balance_debit]
  · simp [h]

theorem applyLine_credit (accs : Accounts) (l : Line) (i : ℕ) :
    (applyLine accs l i).credit_balance =
      (accs i).credit_balance + (if l.account = i then l.credit_amount else 0) := by
  unfold applyLine
  by_cases h : l.account = i
  · subst h; simp [update_balance_credit]
  · simp [h]

theorem applyLine_type (accs : Accounts) (l : Line) (i : ℕ) :
    (applyLine accs l i).account_type = (accs i).account_type := by
  unfold applyLine
  by_cases h : l.account = i
  · subst h; simp [update_balance_type]
  · simp [h]

theorem unapplyLine_debit (accs : Accounts) (l : Line) (i : ℕ) :
    (unapplyLine accs l i).debit_balance =
      (accs i).debit_balance - (if l.account = i then l.debit_amount else 0) := by
  unfold unapplyLine
  by_cases h : l.account = i
  · subst h; simp [update_balance_debit]
  · simp [h]

theorem unapplyLine_credit (accs : Accounts) (l : Line) (i : ℕ) :
    (unapplyLine accs l i).credit_balance =
      (accs i).credit_balance - (if l.account = i then l.credit_amount else 0) := by
  unfold unapplyLine
  by_cases h : l.account = i
  · subst h; simp [update_balance_credit]
  · simp [h]

theorem unapplyLine_type (accs : Accounts) (l : Line) (i : ℕ) :
    (unapplyLine accs l i).account_type = (accs i).account_type := by
  unfold unapplyLine
  by_cases h : l.account = i
  · subst h; simp [update_balance_type]
  · simp [h]

theorem sumDebitsAt_cons (i : ℕ) (l : Line) (ls : List Line) :
    sumDebitsAt i (l :: ls) =
      (if l.account = i then l.debit_amount else 0) + sumDebitsAt i ls := by
  simp [sumDebitsAt]

theorem sumCreditsAt_cons (i : ℕ) (l : Line) (ls : List Line) :
    sumCreditsAt i (l :: ls) =
      (if l.account = i then l.credit_amount else 0) + sumCreditsAt i ls := by
  simp [sumCreditsAt]

theorem foldl_applyLine_debit (ls : List Line) (accs : Accounts) (i : ℕ) :
    ((ls.foldl applyLine accs) i).debit_balance =
      (accs i).debit_balance + sumDebitsAt i ls := by
  induction ls generalizing accs with
  | nil => simp [sumDebitsAt]
  | cons l ls ih =>
    simp only [List.foldl_cons]
    rw [ih, applyLine_debit, sumDebitsAt_cons]
    ring

theorem foldl_applyLine_credit (ls : List Line) (accs : Accounts) (i : ℕ) :
    ((ls.foldl applyLine accs) i).credit_balance =
      (accs i).credit_balance + sumCreditsAt i ls := by
  induction ls generalizing accs with
  | nil => simp [sumCreditsAt]
  | cons l ls ih =>
    simp only [List.foldl_cons]
    rw [ih, applyLine_credit, sumCreditsAt_cons]
    ring

theorem foldl_applyLine_type (ls : List Line) (accs : Accounts) (i : ℕ) :
    ((ls.foldl applyLine accs) i).account_type = (accs i).account_type := by
  induction ls generalizing accs with
  | nil => rfl
  | cons l ls ih =>
    simp only [List.foldl_cons]
    rw [ih, applyLine_type]

theorem foldl_unapplyLine_debit (ls : List Line) (accs : Accounts) (i : ℕ) :
    ((ls.foldl unapplyLine accs) i).debit_balance =
      (accs i).debit_balance - sumDebitsAt i ls := by
  induction ls generalizing accs with
  | nil => simp [sumDebitsAt]
  | cons l ls ih =>
    simp only [List.foldl_cons]
    rw [ih, unapplyLine_debit, sumDebitsAt_cons]
    ring

theorem foldl_unapplyLine_credit (ls : List Line) (accs : Accounts) (i : ℕ) :
    ((ls.foldl unapplyLine accs) i).credit_balance =
      (accs i).credit_balance - sumCreditsAt i ls := by
  induction ls generalizing accs with
  | nil => simp [sumCreditsAt]
  | cons l ls ih =>
    simp only [List.foldl_cons]
    rw [ih, unapplyLine_credit, sumCreditsAt_cons]
    ring

theorem foldl_unapplyLine_type (ls : List Line) (accs : Accounts) (i : ℕ) :
    ((ls.foldl unapplyLine accs) i).account_type = (accs i).account_type := by
  induction ls generalizing accs with
  | nil => rfl
  | cons l ls ih =>
    simp only [List.foldl_cons]
    rw [ih, unapplyLine_type]

theorem applyLine_balanced (accs : Accounts) (l : Line)
    (h : ∀ i, (accs i).balanced) : ∀ i, (applyLine accs l i).balanced := by
  intro i
  unfold applyLine
  split
  · exact update_balance_balanced _
  · exact h i

theorem unapplyLine_balanced (accs : Accounts) (l : Line)
    (h : ∀ i, (accs i).balanced) : ∀ i, (unapplyLine accs l i).balanced := by
  intro i
  unfold unapplyLine
  split
  · exact update_balance_balanced _
  · exact h i

theorem foldl_applyLine_balanced (ls : List Line) (accs : Accounts)
    (h : ∀ i, (accs i).balanced) : ∀ i, ((ls.foldl applyLine accs) i).balanced := by
  induction ls generalizing accs with
  | nil => exact h
  | cons l ls ih =>
    simp only [List.foldl_cons]
    exact ih _ (applyLine_balanced _ _ h)

theorem foldl_unapplyLine_balanced (ls : List Line) (accs : Accounts)
    (h : ∀ i, (accs i).balanced) :
    ∀ i, ((ls.foldl unapplyLine accs) i).balanced := by
  induction ls generalizing accs with
  | nil => exact h
  | cons l ls ih =>
    simp only [List.foldl_cons]
    exact ih _ (unapplyLine_balanced _ _ h)

theorem account_eq (a b : Account)
    (ht : a.account_type = b.account_type) (hb : a.balance = b.balance)
    (hd : a.debit_balance = b.debit_balance)
    (hc : a.credit_balance = b.credit_balance) : a = b := by
  cases a; cases b; simp_all

theorem post_some_accs (accs : Accounts) (e : JournalEntry)
    (accs' : Accounts) (e' : JournalEntry)
    (h : JournalEntry.post accs e = some (accs', e')) :
    accs' = e.lines.foldl applyLine accs ∧ e' = { e with status := .POSTED } := by
  unfold JournalEntry.post at h
  split at h
  · exact absurd h (by simp)
  · split at h
    · exact absurd h (by simp)
    · obtain ⟨h1, h2⟩ := Prod.mk.injEq .. ▸ Option.some.injEq .. ▸ h
      exact ⟨h1.symm, h2.symm⟩

theorem reverse_some_accs (accs : Accounts) (e : JournalEntry)
    (accs' : Accounts) (e' : JournalEntry)
    (h : JournalEntry.reverse accs e = some (accs', e')) :
    accs' = e.lines.foldl unapplyLine accs ∧ e' = { e with status := .REVERSED } := by
  unfold JournalEntry.reverse at h
  split at h
  · exact absurd h (by simp)
  · obtain ⟨h1, h2⟩ := Prod.mk.injEq .. ▸ Option.some.injEq .. ▸ h
    exact ⟨h1.symm, h2.symm⟩

theorem runOp_balanced (accs : Accounts) (op : AcctOp)
    (h : ∀ i, (accs i).balanced) : ∀ i, (runOp accs op i).balanced := by
  cases op with
  | post e =>
    simp only [runOp]
    cases hp : JournalEntry.post accs e with
    | none => exact h
    | some p =>
      obtain ⟨a, e2⟩ := p
      obtain ⟨h1, _⟩ := post_some_accs accs e a e2 hp
      intro i
      show (a i).balanced
      rw [h1]
      exact foldl_applyLine_balanced _ _ h i
  | reverse e =>
    simp only [runOp]
    cases hp : JournalEntry.reverse accs e with
    | none => exact h
    | some p =>
      obtain ⟨a, e2⟩ := p
      obtain ⟨h1, _⟩ := reverse_some_accs accs e a e2 hp
      intro i
      show (a i).balanced
      rw [h1]
      exact foldl_unapplyLine_balanced _ _ h i

theorem runOps_balanced (ops : List AcctOp) (accs : Accounts)
    (h : ∀ i, (accs i).balanced) : ∀ i, (runOps accs ops i).balanced := by
  induction ops generalizing accs with
  | nil => exact h
  | cons op ops ih =>
    simp only [runOps, List.foldl_cons]
    exact ih _ (runOp_balanced _ _ h)

/-
The claims.
-/

/-- C1. For every journal entry whose status is DRAFT, post succeeds if and
only if the sum of debit_amount over its lines equals the sum of
credit_amount over its lines; when the sums differ, post raises (returns
none, the raise happening before any account is touched, so every account's
debit_balance, credit_balance and balance stay as they were and the entry
stays DRAFT); post on an entry whose status is not DRAFT always raises. -/
theorem post_zero_sum_iff (accs : Accounts) (e : JournalEntry) :
    (e.status = .DRAFT →
      ((JournalEntry.post accs e).isSome ↔
        sumDebits e.lines = sumCredits e.lines)) ∧
    (e.status = .DRAFT → sumDebits e.lines ≠ sumCredits e.lines →
      JournalEntry.post accs e = none) ∧
    (e.status ≠ .DRAFT → JournalEntry.post accs e = none) := by
  refine ⟨fun h => ?_, fun h hs => ?_, fun h => ?_⟩
  · by_cases hs : sumDebits e.lines = sumCredits e.lines <;>
      simp [JournalEntry.post, h, hs]
  · simp [JournalEntry.post, h, hs]
  · simp [JournalEntry.post, h]

/-- Witness for C1 at a concrete balanced two-line draft entry. -/
theorem post_zero_sum_iff_witness :
    (JournalEntry.post (fun _ => Account.new .ASSET)
      ⟨.DRAFT, [⟨0, 5, 0⟩, ⟨1, 0, 5⟩]⟩).isSome :=
  ((post_zero_sum_iff (fun _ => Account.new .ASSET)
      ⟨.DRAFT, [⟨0, 5, 0⟩, ⟨1, 0, 5⟩]⟩).1 rfl).mpr
    (by norm_num [sumDebits, sumCredits])

/-- C2. For every balanced DRAFT journal entry over an account table in
which every account carries its derived balance, post followed by reverse
returns every account (in particular every account referenced by the
entry's lines) to exactly the debit_balance, credit_balance and balance it
had before the post, and leaves the entry REVERSED; reverse of an entry
whose status is not POSTED always raises. -/
theorem post_reverse_exact_inverse (accs : Accounts) (e : JournalEntry)
    (hdraft : e.status = .DRAFT)
    (hsum : sumDebits e.lines = sumCredits e.lines)
    (hinv : ∀ i, (accs i).balanced) :
    (∃ accs₁ e₁ accs₂ e₂,
      JournalEntry.post accs e = some (accs₁, e₁) ∧
      JournalEntry.reverse accs₁ e₁ = some (accs₂, e₂) ∧
      (∀ i, accs₂ i = accs i) ∧ e₂.status = .REVERSED) ∧
    (∀ (accs' : Accounts) (e' : JournalEntry), e'.status ≠ .POSTED →
      JournalEntry.reverse accs' e' = none) := by
  constructor
  · refine ⟨e.lines.foldl applyLine accs, { e with status := .POSTED },
      e.lines.foldl unapplyLine (e.lines.foldl applyLine accs),
      { e with status := .REVERSED }, ?_, ?_, ?_, rfl⟩
    · simp [JournalEntry.post, hdraft, hsum]
    · simp [JournalEntry.reverse]
    · intro i
      have h2 : ∀ j, ((e.lines.foldl unapplyLine
          (e.lines.foldl applyLine accs)) j).balanced :=
        foldl_unapplyLine_balanced _ _ (foldl_applyLine_balanced _ _ hinv)
      have ht : ((e.lines.foldl unapplyLine
          (e.lines.foldl applyLine accs)) i).account_type =
          (accs i).account_type := by
        rw [foldl_unapplyLine_type, foldl_applyLine_type]
      have hd : ((e.lines.foldl unapplyLine
          (e.lines.foldl applyLine accs)) i).debit_balance =
          (accs i).debit_balance := by
        rw [foldl_unapplyLine_debit, foldl_applyLine_debit]; ring
      have hc : ((e.lines.foldl unapplyLine
          (e.lines.foldl applyLine accs)) i).credit_balance =
          (accs i).credit_balance := by
        rw [foldl_unapplyLine_credit, foldl_applyLine_credit]; ring
      refine account_eq _ _ ht ?_ hd hc
      rw [balanced_balance _ (h2 i), balanced_balance _ (hinv i), ht, hd, hc]
  · intro accs' e' h
    simp [JournalEntry.reverse, h]

/-- Witness for C2 at a concrete balanced draft entry over fresh accounts. -/
theorem post_reverse_exact_inverse_witness :
    (∃ accs₁ e₁ accs₂ e₂,
      JournalEntry.post (fun _ => Account.new .ASSET)
        ⟨.DRAFT, [⟨0, 5, 0⟩, ⟨1, 0, 5⟩]⟩ = some (accs₁, e₁) ∧
      JournalEntry.reverse accs₁ e₁ = some (accs₂, e₂) ∧
      (∀ i, accs₂ i = (fun _ => Account.new .ASSET : Accounts) i) ∧
      e₂.status = .REVERSED) ∧
    (∀ (accs' : Accounts) (e' : JournalEntry), e'.status ≠ .POSTED →
      JournalEntry.reverse accs' e' = none) :=
  post_reverse_exact_inverse (fun _ => Account.new .ASSET)
    ⟨.DRAFT, [⟨0, 5, 0⟩, ⟨1, 0, 5⟩]⟩ rfl
    (by norm_num [sumDebits, sumCredits])
    (fun i => by norm_num [Account.balanced, Account.update_balance, Account.new])

/-- C3 is a code bug: JournalEntryLine.save adds the line's amounts to its
account's balances the moment the line is stored, while the parent entry is
still DRAFT, contradicting the specified frame property that balances move
only when an entry is posted or reversed. Here a 100.00-debit line saved
against a fresh account moves the account's debit_balance from 0 to 100
before any post. -/
theorem line_save_mutates_draft_balances :
    ((JournalEntryLine.save (fun _ => Account.new .ASSET) ⟨0, 100, 0⟩) 0).debit_balance
      = 100 ∧
    ((fun _ => Account.new .ASSET : Accounts) 0).debit_balance = 0 := by
  constructor
  · norm_num [JournalEntryLine.save, applyLine, Account.new, update_balance_debit]
  · rfl

/-- C4. Starting from any account table whose accounts carry their derived
balances (in particular from freshly created accounts), after any sequence
of post and reverse operations every account's balance equals
debit_balance minus credit_balance for ASSET and EXPENSE accounts and
credit_balance minus debit_balance for LIABILITY, EQUITY and REVENUE
accounts. -/
theorem balance_invariant_all_ops (accs : Accounts)
    (h0 : ∀ i, (accs i).balanced) (ops : List AcctOp) (i : ℕ) :
    (runOps accs ops i).balance =
      if (runOps accs ops i).account_type = .ASSET ∨
          (runOps accs ops i).account_type = .EXPENSE then
        (runOps accs ops i).debit_balance - (runOps accs ops i).credit_balance
      else
        (runOps accs ops i).credit_balance - (runOps accs ops i).debit_balance :=
  balanced_balance _ (runOps_balanced ops accs h0 i)

/-- Witness for C4 with fresh accounts and one concrete posted entry. -/
theorem balance_invariant_all_ops_witness :
    (runOps (fun _ => Account.new .REVENUE)
        [.post ⟨.DRAFT, [⟨0, 5, 0⟩, ⟨1, 0, 5⟩]⟩] 0).balance =
      if (runOps (fun _ => Account.new .REVENUE)
            [.post ⟨.DRAFT, [⟨0, 5, 0⟩, ⟨1, 0, 5⟩]⟩] 0).account_type = .ASSET ∨
          (runOps (fun _ => Account.new .REVENUE)
            [.post ⟨.DRAFT, [⟨0, 5, 0⟩, ⟨1, 0, 5⟩]⟩] 0).account_type = .EXPENSE then
        (runOps (fun _ => Account.new .REVENUE)
            [.post ⟨.DRAFT, [⟨0, 5, 0⟩, ⟨1, 0, 5⟩]⟩] 0).debit_balance -
          (runOps (fun _ => Account.new .REVENUE)
            [.post ⟨.DRAFT, [⟨0, 5, 0⟩, ⟨1, 0, 5⟩]⟩] 0).credit_balance
      else
        (runOps (fun _ => Account.new .REVENUE)
            [.post ⟨.DRAFT, [⟨0, 5, 0⟩, ⟨1, 0, 5⟩]⟩] 0).credit_balance -
          (runOps (fun _ => Account.new .REVENUE)
            [.post ⟨.DRAFT, [⟨0, 5, 0⟩, ⟨1, 0, 5⟩]⟩] 0).debit_balance :=
  balance_invariant_all_ops (fun _ => Account.new .REVENUE)
    (fun i => by norm_num [Account.balanced, Account.update_balance, Account.new])
    [.post ⟨.DRAFT, [⟨0, 5, 0⟩, ⟨1, 0, 5⟩]⟩] 0

/-- C10. When the lines of a balanced DRAFT entry are created through
JournalEntryLine.save, each line's amounts hit its account's balances once
at creation; a subsequent successful post adds them again, so after the
post each account's debit_balance and credit_balance have grown by twice
the line amounts relative to before the lines were created. -/
theorem lines_saved_then_posted_double_counts (accs : Accounts)
    (e : JournalEntry) (hdraft : e.status = .DRAFT)
    (hsum : sumDebits e.lines = sumCredits e.lines) :
    ∃ accs₂ e',
      JournalEntry.post (e.lines.foldl JournalEntryLine.save accs) e =
        some (accs₂, e') ∧
      ∀ i,
        (accs₂ i).debit_balance =
          (accs i).debit_balance + 2 * sumDebitsAt i e.lines ∧
        (accs₂ i).credit_balance =
          (accs i).credit_balance + 2 * sumCreditsAt i e.lines := by
  refine ⟨e.lines.foldl applyLine (e.lines.foldl applyLine accs),
    { e with status := .POSTED }, ?_, ?_⟩
  · show JournalEntry.post (e.lines.foldl applyLine accs) e = _
    simp [JournalEntry.post, hdraft, hsum]
  · intro i
    constructor
    · rw [foldl_applyLine_debit, foldl_applyLine_debit]; ring
    · rw [foldl_applyLine_credit, foldl_applyLine_credit]; ring

/-- Witness for C10 at a concrete balanced two-line draft entry. -/
theorem lines_saved_then_posted_double_counts_witness :
    ∃ accs₂ e',
      JournalEntry.post
        ((⟨.DRAFT, [⟨0, 5, 0⟩, ⟨1, 0, 5⟩]⟩ : JournalEntry).lines.foldl
          JournalEntryLine.save (fun _ => Account.new .ASSET))
        ⟨.DRAFT, [⟨0, 5, 0⟩, ⟨1, 0, 5⟩]⟩ = some (accs₂, e') ∧
      ∀ i,
        (accs₂ i).debit_balance =
          ((fun _ => Account.new .ASSET : Accounts) i).debit_balance +
            2 * sumDebitsAt i (⟨.DRAFT, [⟨0, 5, 0⟩, ⟨1, 0, 5⟩]⟩ : JournalEntry).lines ∧
        (accs₂ i).credit_balance =
          ((fun _ => Account.new .ASSET : Accounts) i).credit_balance +
            2 * sumCreditsAt i (⟨.DRAFT, [⟨0, 5, 0⟩, ⟨1, 0, 5⟩]⟩ : JournalEntry).lines :=
  lines_saved_then_posted_double_counts (fun _ => Account.new .ASSET)
    ⟨.DRAFT, [⟨0, 5, 0⟩, ⟨1, 0, 5⟩]⟩ rfl (by norm_num [sumDebits, sumCredits])

/-- C5 fails as stated: with entries numbered 2025-000005 and ABC both dated
in 2025, the maximum numeric suffix is 5 and the claim asks for 2025-000006,
but the code orders by the raw string, picks ABC, fails to parse it and
falls back to 2025-000001. -/
theorem entry_number_foreign_format_counterexample :
    generate_entry_number 2025 ["2025-000005", "ABC"] = "2025-000001" ∧
    ("2025-000001" : String) ≠ "2025-000006" := by
  exact ⟨by decide, by decide⟩

/-- C5 as amended: the first entry of a year with no existing entries is
numbered YEAR-000001; the generated number is YEAR-(n+1) zero-padded to 6
digits where n is the parsed numeric suffix after the last dash of the
lexicographically greatest entry_number dated in that year (so with only
generated-format numbers present the sequence runs 2025-000001,
2025-000002, ...), and the fallback to YEAR-000001 fires when that suffix
does not parse. -/
theorem entry_number_lexmax (year : ℕ) (l : List String) (s : String) (n : ℕ) :
    (generate_entry_number year [] = mkEntryNumber year 1) ∧
    (generate_entry_number 2025 ["2025-000001"] = "2025-000002") ∧
    (maxString? l = some s → lastDashPiece? s = some n →
      generate_entry_number year l = mkEntryNumber year (n + 1)) := by
  refine ⟨rfl, by decide, fun h1 h2 => ?_⟩
  have hs : s ≠ "" := by
    intro he
    subst he
    simp [lastDashPiece?, splitDash, digitsToNat?] at h2
  unfold generate_entry_number
  rw [h1]
  simp [hs, h2]

/-- Witness for C5's amended statement at concrete inputs. -/
theorem entry_number_lexmax_witness :
    (generate_entry_number 2025 [] = mkEntryNumber 2025 1) ∧
    (generate_entry_number 2025 ["2025-000001"] = "2025-000002") ∧
    (generate_entry_number 2025 ["2025-000002"] = mkEntryNumber 2025 3) :=
  ⟨(entry_number_lexmax 2025 ["2025-000002"] "2025-000002" 2).1,
   (entry_number_lexmax 2025 ["2025-000002"] "2025-000002" 2).2.1,
   (entry_number_lexmax 2025 ["2025-000002"] "2025-000002" 2).2.2
     (by decide) (by decide)⟩

theorem qround2_2dp (x : ℚ) : ∃ n : ℤ, qround2 x = n / 100 := by
  unfold qround2
  split
  · exact ⟨⌊x * 100 + 1 / 2⌋, rfl⟩
  · exact ⟨-⌊-x * 100 + 1 / 2⌋, by push_cast; ring⟩

theorem qround2_le_of_le (x b : ℚ) (hb2 : ∃ n : ℤ, b = n / 100)
    (hb0 : 0 ≤ b) (hxb : x ≤ b) : qround2 x ≤ b := by
  obtain ⟨n, rfl⟩ := hb2
  unfold qround2
  split
  · rename_i hx
    have hmul : x * 100 ≤ (n : ℚ) := by
      have h1 : x * 100 ≤ (n : ℚ) / 100 * 100 := by
        apply mul_le_mul_of_nonneg_right hxb
        norm_num
      rwa [div_mul_cancel₀ _ (by norm_num : (100 : ℚ) ≠ 0)] at h1
    have hfl : ⌊x * 100 + 1 / 2⌋ ≤ n := by
      have h2 : ⌊x * 100 + 1 / 2⌋ < n + 1 := by
        rw [Int.floor_lt]
        push_cast
        linarith
      omega
    have h3 : ((⌊x * 100 + 1 / 2⌋ : ℤ) : ℚ) ≤ (n : ℚ) := by exact_mod_cast hfl
    linarith
  · rename_i hx
    push_neg at hx
    have hfl : (0 : ℤ) ≤ ⌊-x * 100 + 1 / 2⌋ := by
      rw [Int.floor_nonneg]
      linarith
    have h3 : (0 : ℚ) ≤ ((⌊-x * 100 + 1 / 2⌋ : ℤ) : ℚ) := by exact_mod_cast hfl
    linarith

theorem qround2_eq_self (x : ℚ) (h : ∃ n : ℤ, x = n / 100) : qround2 x = x := by
  obtain ⟨n, rfl⟩ := h
  unfold qround2
  have hmul : (n : ℚ) / 100 * 100 = (n : ℚ) :=
    div_mul_cancel₀ _ (by norm_num : (100 : ℚ) ≠ 0)
  split
  · rw [hmul, Int.floor_int_add, show ⌊(1 / 2 : ℚ)⌋ = 0 by norm_num]
    push_cast
    ring
  · rw [show -((n : ℚ) / 100) * 100 = ((-n : ℤ) : ℚ) by push_cast; linarith [hmul],
      Int.floor_int_add, show ⌊(1 / 2 : ℚ)⌋ = 0 by norm_num]
    push_cast
    ring

theorem clampRound_spec (total cost salvage : ℚ) (hs0 : 0 ≤ salvage)
    (hsc : salvage ≤ cost) (hc2 : ∃ n : ℤ, cost = n / 100)
    (hs2 : ∃ n : ℤ, salvage = n / 100) :
    qround2 (min total (cost - salvage)) ≤ cost - salvage ∧
    salvage ≤ qround2 (cost - qround2 (min total (cost - salvage))) := by
  have hb2 : ∃ n : ℤ, cost - salvage = n / 100 := by
    obtain ⟨a, ha⟩ := hc2
    obtain ⟨b, hb⟩ := hs2
    exact ⟨a - b, by rw [ha, hb]; push_cast; ring⟩
  have h1 : qround2 (min total (cost - salvage)) ≤ cost - salvage :=
    qround2_le_of_le _ _ hb2 (by linarith) (min_le_right _ _)
  refine ⟨h1, ?_⟩
  obtain ⟨m, hm⟩ := qround2_2dp (min total (cost - salvage))
  obtain ⟨a, ha⟩ := hc2
  have h2 : cost - qround2 (min total (cost - salvage)) = ((a - m : ℤ) : ℚ) / 100 := by
    rw [hm, ha]
    push_cast
    ring
  rw [qround2_eq_self _ ⟨a - m, h2⟩]
  linarith

/-- C6. For every asset with purchase_cost at least salvage_value at least
0 (both whole cents), positive useful life, any supported depreciation
method and any number of elapsed months however large, the
accumulated_depreciation computed by calculate_current_values is at most
purchase_cost minus salvage_value and the computed current_book_value is at
least salvage_value. -/
theorem depreciation_clamped (method : DepMethod) (cost salvage : ℚ)
    (life : ℕ) (months : ℤ) (hl : 0 < life) (hs0 : 0 ≤ salvage)
    (hsc : salvage ≤ cost) (hc2 : ∃ n : ℤ, cost = n / 100)
    (hs2 : ∃ n : ℤ, salvage = n / 100) :
    (calculate_current_values method cost salvage life months).1 ≤
      cost - salvage ∧
    salvage ≤ (calculate_current_values method cost salvage life months).2 := by
  unfold calculate_current_values
  split
  · exact ⟨by simpa using sub_nonneg.mpr hsc, by simpa using hsc⟩
  · exact ⟨(clampRound_spec _ cost salvage hs0 hsc hc2 hs2).1,
      (clampRound_spec _ cost salvage hs0 hsc hc2 hs2).2⟩

/-- Witness for C6: double-declining asset of cost 10000, salvage 1000,
life 5 years, evaluated 120 months after purchase. -/
theorem depreciation_clamped_witness :
    (calculate_current_values .DOUBLE_DECLINING 10000 1000 5 120).1 ≤
      10000 - 1000 ∧
    (1000 : ℚ) ≤ (calculate_current_values .DOUBLE_DECLINING 10000 1000 5 120).2 :=
  depreciation_clamped .DOUBLE_DECLINING 10000 1000 5 120 (by norm_num)
    (by norm_num) (by norm_num) ⟨1000000, by norm_num⟩ ⟨100000, by norm_num⟩

/-- C7 is a code bug: calculate_current_values has no DECLINING_BALANCE
branch, so a declining-balance asset falls into the default straight-line
formula, although depreciation_rate, annual_depreciation and the schedule
generator all give DECLINING_BALANCE the declining mechanics at annual rate
1.5 over the life. For cost 1000, salvage 0, life 10 years and 12 elapsed
months the code computes 100 (straight line), while the declining-balance
year loop at rate 1.5/10 yields 150. -/
theorem declining_balance_falls_to_straight_line :
    calculate_current_values .DECLINING_BALANCE 1000 0 10 12 =
      calculate_current_values .STRAIGHT_LINE 1000 0 10 12 ∧
    (calculate_current_values .DECLINING_BALANCE 1000 0 10 12).1 = 100 ∧
    (ddLoop 0 (depreciation_rate .DECLINING_BALANCE 10) 1 0 2 0 1000 0).2 = 150 ∧
    (calculate_current_values .DECLINING_BALANCE 1000 0 10 12).1 ≠
      (ddLoop 0 (depreciation_rate .DECLINING_BALANCE 10) 1 0 2 0 1000 0).2 := by
  have h2 : (calculate_current_values .DECLINING_BALANCE 1000 0 10 12).1 = 100 := by
    norm_num [calculate_current_values, min_def, qround2]
  have h3 : (ddLoop 0 (depreciation_rate .DECLINING_BALANCE 10) 1 0 2 0 1000 0).2 = 150 := by
    norm_num [ddLoop, depreciation_rate]
  exact ⟨rfl, h2, h3, by rw [h2, h3]; norm_num⟩

/-- C9 fails as stated: the rollback branch of create_disposal_entry writes
the fixed status ACTIVE rather than the pre-disposal value, so an asset
whose status was INACTIVE before a failing disposal attempt ends up ACTIVE,
not restored. -/
theorem disposal_rollback_counterexample :
    ((Asset.mk 5000 0 5 .STRAIGHT_LINE 0 5000 .INACTIVE none none
        "").create_disposal_entry 1 100 "SALE" false 0 false).1.status ≠
      (Asset.mk 5000 0 5 .STRAIGHT_LINE 0 5000 .INACTIVE none none "").status := by
  simp [Asset.create_disposal_entry, Asset.save_calc, calculate_current_values]

/-- C9 as amended: when the journal step fails, the asset is reset to the
fixed post-rollback state — status ACTIVE, the three disposal fields
cleared, and accumulated_depreciation and current_book_value recomputed as
of today by the rollback save — and the error is re-raised; that equals the
pre-disposal state exactly when the asset was ACTIVE, carried no disposal
data, and its stored depreciation values were already current. On success
the status becomes DISPOSED and the recorded gain/loss is the disposal
amount minus the stored book value at disposal. -/
theorem disposal_rollback_amended (a : Asset) (ddate : ℕ) (damount : ℚ)
    (dmethod : String) (pf : Bool) (months : ℤ) :
    ((a.create_disposal_entry ddate damount dmethod pf months false).1 =
        Asset.save_calc
          { a with status := .ACTIVE, disposal_date := none,
                   disposal_amount := none, disposal_method := "" } pf months ∧
      (a.create_disposal_entry ddate damount dmethod pf months false).2 = none ∧
      (a.status = .ACTIVE → a.disposal_date = none → a.disposal_amount = none →
        a.disposal_method = "" → a.save_calc pf months = a →
        (a.create_disposal_entry ddate damount dmethod pf months false).1 = a)) ∧
    ((a.create_disposal_entry ddate damount dmethod pf months true).1.status =
        .DISPOSED ∧
      (a.create_disposal_entry ddate damount dmethod pf months true).2 =
        some (damount - a.current_book_value)) := by
  obtain ⟨pc, sv, ul, dm0, ad, cbv, st, dd, da, dmm⟩ := a
  refine ⟨⟨?_, ?_, ?_⟩, ?_, ?_⟩
  · simp [Asset.create_disposal_entry, Asset.save_calc]
  · simp [Asset.create_disposal_entry, Asset.save_calc]
  · intro h1 h2 h3 h4 h5
    subst h1; subst h2; subst h3; subst h4
    simpa [Asset.create_disposal_entry, Asset.save_calc] using h5
  · simp [Asset.create_disposal_entry, Asset.save_calc]
  · simp [Asset.create_disposal_entry, Asset.save_calc]

/-- Witness for C9's amended statement: a clean ACTIVE asset with cost and
book value 5000 and current stored values (disposed within the purchase
month) is restored exactly on failure, and a successful disposal for 7000
records a gain of 2000. -/
theorem disposal_rollback_amended_witness :
    ((Asset.mk 5000 0 5 .STRAIGHT_LINE 0 5000 .ACTIVE none none
        "").create_disposal_entry 1 7000 "SALE" false 0 false).1 =
      Asset.mk 5000 0 5 .STRAIGHT_LINE 0 5000 .ACTIVE none none "" ∧
    ((Asset.mk 5000 0 5 .STRAIGHT_LINE 0 5000 .ACTIVE none none
        "").create_disposal_entry 1 7000 "SALE" false 0 true).2 =
      some (7000 - 5000) :=
  ⟨(disposal_rollback_amended
      (Asset.mk 5000 0 5 .STRAIGHT_LINE 0 5000 .ACTIVE none none "")
      1 7000 "SALE" false 0).1.2.2 rfl rfl rfl rfl
      (by simp [Asset.save_calc, calculate_current_values]),
   (disposal_rollback_amended
      (Asset.mk 5000 0 5 .STRAIGHT_LINE 0 5000 .ACTIVE none none "")
      1 7000 "SALE" false 0).2.2⟩

/-- C8 fails as stated: with one PAYABLE commission of 10000 and one prior
PAID advance of 3000 the available balance is 7000 and the claim requires a
request of 8000 to fail on both paths, yet give_advance accepts 8000
because it validates only against the PAYABLE commission sum and never
subtracts unrecovered advances. -/
theorem give_advance_exceeds_balance_counterexample :
    available_commission 1 [⟨1, 10000, .PAYABLE⟩] [⟨1, 3000, 3000, .PAID⟩] = 7000 ∧
    (7000 : ℚ) < 8000 ∧
    (give_advance 1 8000 [⟨1, 10000, .PAYABLE⟩]).isSome = true := by
  refine ⟨?_, by norm_num, ?_⟩
  · norm_num [available_commission, pending_commission, unrecovered_advances]
  · norm_num [give_advance, payable_commission]

/-- C8 as amended: the employee request path validates against the
available balance, the sum of AVAILABLE and PAYABLE commissions minus
APPROVED and PAID advances clamped at zero, and succeeds exactly when the
requested amount is within it; the manager give_advance path instead
validates only against the sum of the employee's PAYABLE commissions,
ignoring unrecovered advances. -/
theorem advance_validation_amended (emp : ℕ) (requested : ℚ)
    (cs : List Commission) (advs : List AdvancePayment) :
    (0 < requested →
      ((request_advance emp requested cs advs false).isSome ↔
        requested ≤ available_commission emp cs advs)) ∧
    (0 < requested →
      ((give_advance emp requested cs).isSome ↔
        requested ≤ payable_commission emp cs)) := by
  constructor <;> intro h
  · by_cases hc : available_commission emp cs advs < requested
    · simp [request_advance, h.not_le, hc, hc.not_le]
    · simp [request_advance, h.not_le, hc, not_lt.mp hc]
  · by_cases hc : payable_commission emp cs < requested
    · simp [give_advance, h.not_le, hc, hc.not_le]
    · simp [give_advance, h.not_le, hc, not_lt.mp hc]

/-- Witness for C8's amended statement: in the 10000/3000 scenario the
request path accepts exactly 7000. -/
theorem advance_validation_amended_witness :
    (request_advance 1 7000 [⟨1, 10000, .PAYABLE⟩]
      [⟨1, 3000, 3000, .PAID⟩] false).isSome :=
  ((advance_validation_amended 1 7000 [⟨1, 10000, .PAYABLE⟩]
      [⟨1, 3000, 3000, .PAID⟩]).1 (by norm_num)).mpr
    (by norm_num [available_commission, pending_commission, unrecovered_advances])

end Saletide
